import Mathlib

/-!
Shallow embedding of the MCP gateway (`src/docker/mcp-gateway/main.py`):
the Protocol Client (`send_mcp_request`, `list_mcp_tools`, `call_mcp_tool`),
the Redis-backed result cache, and the Router endpoints
(`execute_mcp_tool`, `list_server_tools`, `list_all_tools`).

The network is modelled as the HTTP outcome the backend produces for a
request; Python exceptions raised by `httpx`, JSON decoding, and attribute
access are modelled as explicit outcome constructors.  The Redis client is
modelled as a possibly-absent handle over an association list of
(key, value, expiry) with lazy expiry, whose `get`/`setex` commands may
themselves raise a connection error at request time (`redis.from_url`
performs no I/O, so a present client does not imply a reachable store);
`json.dumps` followed by `json.loads` is modelled as the identity on JSON
values.
-/

namespace MCPGateway

/-- JSON values, used for tool arguments, results and cached entries. -/
inductive Json where
  | null : Json
  | bool (b : Bool) : Json
  | num (n : Int) : Json
  | str (s : String) : Json
  | arr (xs : List Json) : Json
  | obj (fields : List (String × Json)) : Json

/-- One entry of `MCP_SERVERS`: `{"url": ..., "enabled": ...}` (main.py lines 155-161). -/
structure ServerConfig where
  url : String
  enabled : Bool
  deriving DecidableEq, Repr

/-- The JSON-RPC `error` member of a decoded response body: a dict read with
`error.get("message", "Unknown error")` and `error.get("code", -1)` (main.py lines 78-83). -/
structure RpcError where
  code : Option Int
  message : Option String
  deriving DecidableEq, Repr

/-- The decoded HTTP response body of a backend.  `malformed` covers a body on
which `response.json()` or the subsequent dict accesses raise a Python
exception (a body that is not a JSON object of the expected envelope shape);
`envelope` carries the optional `error` member and the optional `result`
member of a well-formed JSON-RPC response. -/
inductive BodyResult where
  | malformed (msg : String) : BodyResult
  | envelope (err : Option RpcError) (result : Option Json) : BodyResult

/-- Outcome of one `httpx` POST to a backend: a timeout
(`httpx.TimeoutException`), a connection failure (`httpx.RequestError`), a
non-success HTTP status (`response.raise_for_status()` raising
`httpx.HTTPStatusError` with the response's status code and text), or a
response whose body is `BodyResult`. -/
inductive HttpOutcome where
  | timeout : HttpOutcome
  | connectError (msg : String) : HttpOutcome
  | statusError (status : Nat) (body : String) : HttpOutcome
  | ok (body : BodyResult) : HttpOutcome

/-- An error escaping a handler: `HTTPException(status_code, detail)`, or any
other Python exception (carrying its `str`). -/
inductive GatewayError where
  | httpError (status : Nat) (detail : String) : GatewayError
  | genericError (msg : String) : GatewayError
  deriving DecidableEq, Repr

/-- `str(e)` of an exception: Starlette's `HTTPException.__str__` is
`"{status_code}: {detail}"`; any other exception is its message. -/
def errorText : GatewayError → String
  | .httpError status detail => toString status ++ ": " ++ detail
  | .genericError msg => msg

/-- Default of the `timeout` parameter of `send_mcp_request`
(`timeout: float = 30.0`, main.py line 43). -/
def send_mcp_request_default_timeout : Nat := 30

/-- `send_mcp_request` (main.py lines 39-101): sends the JSON-RPC request and
maps the outcome.  A timeout raises 504, an `HTTPStatusError` re-raises the
backend's status code with detail `"MCP server error: <body>"`, a connection
failure raises 503, a body carrying a JSON-RPC `error` member raises 500 with
the backend's message and code, a malformed body raises a plain Python
exception (propagated to the caller uncaught), and otherwise the `result`
member is returned (`result.get("result", {})`). -/
def send_mcp_request (timeout : Nat) (resp : HttpOutcome) : Except GatewayError Json :=
  match resp with
  | .timeout =>
      .error (.httpError 504 ("MCP server timeout after " ++ toString timeout ++ "s"))
  | .statusError status body =>
      .error (.httpError status ("MCP server error: " ++ body))
  | .connectError msg =>
      .error (.httpError 503 ("Failed to connect to MCP server: " ++ msg))
  | .ok (.malformed msg) => .error (.genericError msg)
  | .ok (.envelope (some err) _) =>
      let m := err.message.getD "Unknown error"
      let c := err.code.getD (-1)
      .error (.httpError 500 ("MCP error: " ++ m ++ " (code: " ++ toString c ++ ")"))
  | .ok (.envelope none result) => .ok (result.getD (Json.obj []))

/-- Timeout used by `list_mcp_tools`: it calls `send_mcp_request` without a
`timeout` argument (main.py line 106), so the default applies. -/
def list_mcp_tools_timeout : Nat := send_mcp_request_default_timeout

/-- Timeout used by `call_mcp_tool`: it calls `send_mcp_request` without a
`timeout` argument (main.py line 130), so the default applies. -/
def call_mcp_tool_timeout : Nat := send_mcp_request_default_timeout

/-- `list_mcp_tools` (main.py lines 104-107): `result.get("tools", [])` on the
returned result.  If the result is not a dict the attribute access raises. -/
def list_mcp_tools (resp : HttpOutcome) : Except GatewayError Json :=
  match send_mcp_request list_mcp_tools_timeout resp with
  | .error e => .error e
  | .ok (Json.obj fields) =>
      .ok (((fields.lookup "tools").getD (Json.arr [])))
  | .ok _ => .error (.genericError "AttributeError: object has no attribute get")

/-- `call_mcp_tool` (main.py lines 110-130): builds params
`{"name": tool_name, "arguments": arguments}` and delegates to
`send_mcp_request` with method `tools/call` and the default timeout.  The
params do not influence the modelled outcome; the backend's behaviour is the
`resp` argument. -/
def call_mcp_tool (resp : HttpOutcome) : Except GatewayError Json :=
  send_mcp_request call_mcp_tool_timeout resp

/-- One Redis entry written by `SETEX`: the cached JSON value and the absolute
expiry instant. -/
structure CacheEntry where
  value : Json
  expiry : Nat

/-- The Redis store: an association list from key to entry; the most recent
write for a key shadows older ones. -/
def Store := List (String × CacheEntry)

/-- `redis_client.get(key)` at instant `now`: the entry's value when the key
is present and not yet expired; `None` otherwise (lazy expiry). -/
def storeGet (st : Store) (now : Nat) (key : String) : Option Json :=
  match st.lookup key with
  | some e => if now < e.expiry then some e.value else none
  | none => none

/-- `redis_client.setex(key, ttl, value)` at instant `now`: writes the value
with expiry `now + ttl`, overwriting any previous entry for the key. -/
def storeSet (st : Store) (now : Nat) (key : String) (ttl : Nat) (v : Json) : Store :=
  (key, ⟨v, now + ttl⟩) :: st

/-- The state of the module-level `redis_client` when it is not `None`
(main.py lines 147-152).  `redis.from_url` performs no I/O, so the client
can exist while the Redis server itself is unreachable: `readFails = some
msg` means `redis_client.get` raises `ConnectionError(msg)` at request time,
and `writeFails = some msg` means `redis_client.setex` raises. -/
structure RedisClient where
  store : Store
  readFails : Option String
  writeFails : Option String

/-- The guarded cache read `if redis_client: cached = redis_client.get(key)`
(main.py lines 220-223 and 300-303): without a Redis client every read is a
miss, and with a client whose store is unreachable the command raises a
`ConnectionError` — which both call sites execute *outside* their `try`
blocks, so it escapes the handler uncaught. -/
def cacheLookup (redis : Option RedisClient) (now : Nat) (key : String) :
    Except String (Option Json) :=
  match redis with
  | some c =>
    match c.readFails with
    | some msg => .error msg
    | none => .ok (storeGet c.store now key)
  | none => .ok none

/-- The guarded cache write `if redis_client: redis_client.setex(key, ttl, v)`
(main.py lines 245-246 and 309-310): without a Redis client the write is a
no-op, and with a client whose store is unreachable the command raises a
`ConnectionError` — which both call sites execute *inside* their `try`
blocks, so the generic handler wraps it as a 500. -/
def cacheWrite (redis : Option RedisClient) (now : Nat) (key : String)
    (ttl : Nat) (v : Json) : Except String (Option RedisClient) :=
  match redis with
  | some c =>
    match c.writeFails with
    | some msg => .error msg
    | none => .ok (some { c with store := storeSet c.store now key ttl v })
  | none => .ok none

/-- The `MCP_SERVERS` registry (main.py lines 155-161), parametrised by
whether `GITHUB_TOKEN` is set (`"enabled": bool(os.getenv("GITHUB_TOKEN"))`). -/
def MCP_SERVERS (github_token : Bool) : List (String × ServerConfig) :=
  [("github", { url := "http://github_mcp:8000", enabled := github_token })]

/-- The body of a `POST /execute` request (main.py lines 176-187):
`request.get("tool")`, `request.get("server")`, `request.get("arguments", {})`.
A field that is present but bound to the empty string is distinct from an
absent field, because Python's truthiness check treats both as falsy. -/
structure ExecRequest where
  tool : Option String
  server : Option String
  arguments : Option Json

/-- Python's `s.startswith(p)`: `p`'s characters are an initial segment of
`s`'s characters. -/
def startswith (s p : String) : Bool :=
  p.data.isPrefixOf s.data

/-- The cache key of `execute_mcp_tool`:
`f"mcp:execute:{server_name}:{tool_name}"` (main.py line 217). -/
def execute_cache_key (server_name tool_name : String) : String :=
  "mcp:execute:" ++ server_name ++ ":" ++ tool_name

/-- The cache key of `list_server_tools`: `f"mcp:tools:{server_name}"`
(main.py line 299). -/
def tools_cache_key (server_name : String) : String :=
  "mcp:tools:" ++ server_name

/-- The TTL of a successful execution result: `redis_client.setex(cache_key,
300, ...)` (main.py line 246). -/
def execute_cache_ttl : Nat := 300

/-- The TTL of a cached tools list: `redis_client.setex(cache_key, 600, ...)`
(main.py line 310). -/
def tools_cache_ttl : Nat := 600

/-- The ExecutionResult built on success (main.py lines 236-242). -/
def mkExecutionResult (server_name tool_name : String) (mcp_result arguments : Json) : Json :=
  Json.obj [("success", Json.bool true), ("server", Json.str server_name),
    ("tool", Json.str tool_name), ("result", mcp_result), ("arguments", arguments)]

/-- The server-resolution block of `execute_mcp_tool` (main.py lines 192-201):
a request with a missing or empty `server` field falls back to the prefix
heuristic — a tool name starting with `github_` resolves to `github`, anything
else fails with 400.  Python's `if not server_name` treats the empty string
like an absent field. -/
def resolve_server_name (tool_name : String) (server : Option String) :
    Except GatewayError String :=
  let explicit : Option String :=
    match server with
    | some s => if s = "" then none else some s
    | none => none
  match explicit with
  | some s => .ok s
  | none =>
    if startswith tool_name "github_" then .ok "github"
    else .error (.httpError 400
      "Server name required or tool name must include server prefix")

/-- The observable outcome of one handler invocation: the HTTP response (a
JSON body or an escaped error), the Redis store afterwards, and whether the
handler reached a Protocol Client call (`call_mcp_tool` / `list_mcp_tools`). -/
structure HandlerOutcome where
  result : Except GatewayError Json
  cache : Option RedisClient
  networkCalled : Bool

/-- `execute_mcp_tool` (main.py lines 175-257), the `POST /execute` handler.
`servers` is the `MCP_SERVERS` global, `redis` the (possibly absent)
`redis_client`, `now` the current instant, and `resp` the backend's behaviour
for the one `call_mcp_tool` this invocation may perform.

Steps, in source order: reject a missing or empty tool name (400); infer the
server from the `github_` tool-name prefix when no server is given, else 400;
404 for an unregistered server; 503 for a disabled one; read the cache (a
raising `get` escapes the handler uncaught, since line 221 sits outside the
`try`) and return a fresh unexpired entry when present; otherwise call the
tool, build the ExecutionResult, cache it for 300 s (a raising `setex` at
line 246 sits inside the `try` and is wrapped by the generic handler), and
return it; re-raise `HTTPException`s from the MCP communication and wrap any
other exception as a 500. -/
def execute_mcp_tool (servers : List (String × ServerConfig))
    (redis : Option RedisClient) (now : Nat) (resp : HttpOutcome)
    (req : ExecRequest) : HandlerOutcome :=
  let arguments := req.arguments.getD (Json.obj [])
  match req.tool with
  | none => ⟨.error (.httpError 400 "Tool name required"), redis, false⟩
  | some tool_name =>
    if tool_name = "" then
      ⟨.error (.httpError 400 "Tool name required"), redis, false⟩
    else
      match resolve_server_name tool_name req.server with
      | .error e => ⟨.error e, redis, false⟩
      | .ok server_name =>
        match servers.lookup server_name with
        | none => ⟨.error (.httpError 404
            ("MCP server '" ++ server_name ++ "' not found")), redis, false⟩
        | some server_config =>
          if !server_config.enabled then
            ⟨.error (.httpError 503
              ("MCP server '" ++ server_name ++ "' is not enabled")), redis, false⟩
          else
            let cache_key := execute_cache_key server_name tool_name
            match cacheLookup redis now cache_key with
            | .error msg => ⟨.error (.genericError msg), redis, false⟩
            | .ok (some v) => ⟨.ok v, redis, false⟩
            | .ok none =>
              match call_mcp_tool resp with
              | .ok mcp_result =>
                let result := mkExecutionResult server_name tool_name mcp_result arguments
                match cacheWrite redis now cache_key execute_cache_ttl result with
                | .ok redis2 => ⟨.ok result, redis2, true⟩
                | .error msg =>
                  ⟨.error (.httpError 500 ("Error executing tool: " ++ msg)), redis, true⟩
              | .error (.httpError status detail) =>
                ⟨.error (.httpError status detail), redis, true⟩
              | .error (.genericError msg) =>
                ⟨.error (.httpError 500 ("Error executing tool: " ++ msg)), redis, true⟩

/-- `list_server_tools` (main.py lines 274-319), the
`GET /servers/{server_name}/tools` handler: 404 for an unregistered server,
503 for a disabled one, then the cached tools list when fresh (a raising
`get` at line 301 sits outside the `try` and escapes uncaught), else one
`list_mcp_tools` call whose successful value is cached for 600 s (a raising
`setex` at line 310 sits inside the `try`); an `HTTPException` is re-raised
and any other exception is wrapped as a 500. -/
def list_server_tools (servers : List (String × ServerConfig))
    (redis : Option RedisClient) (now : Nat) (resp : HttpOutcome)
    (server_name : String) : HandlerOutcome :=
  match servers.lookup server_name with
  | none => ⟨.error (.httpError 404
      ("MCP server '" ++ server_name ++ "' not found")), redis, false⟩
  | some server_config =>
    if !server_config.enabled then
      ⟨.error (.httpError 503
        ("MCP server '" ++ server_name ++ "' is not enabled")), redis, false⟩
    else
      let cache_key := tools_cache_key server_name
      match cacheLookup redis now cache_key with
      | .error msg => ⟨.error (.genericError msg), redis, false⟩
      | .ok (some v) =>
        ⟨.ok (Json.obj [("server", Json.str server_name), ("tools", v)]), redis, false⟩
      | .ok none =>
        match list_mcp_tools resp with
        | .ok tools =>
          match cacheWrite redis now cache_key tools_cache_ttl tools with
          | .ok redis2 =>
            ⟨.ok (Json.obj [("server", Json.str server_name), ("tools", tools)]),
              redis2, true⟩
          | .error msg =>
            ⟨.error (.httpError 500 ("Failed to list tools: " ++ msg)), redis, true⟩
        | .error (.httpError status detail) =>
          ⟨.error (.httpError status detail), redis, true⟩
        | .error (.genericError msg) =>
          ⟨.error (.httpError 500 ("Failed to list tools: " ++ msg)), redis, true⟩

/-- `list_all_tools` (main.py lines 322-346), the `GET /tools` handler: visits
every registered server in order, skips the disabled ones, calls
`list_mcp_tools` for each enabled one, and collects successes into the
`all_tools` dict and stringified exceptions (`errors[name] = str(e)`, catching
`HTTPException` like any other exception) into the `errors` dict.  `net` gives
each server url's backend behaviour.  The handler performs no caching. -/
def list_all_tools (servers : List (String × ServerConfig))
    (net : String → HttpOutcome) : List (String × Json) × List (String × String) :=
  match servers with
  | [] => ([], [])
  | p :: rest =>
    let r := list_all_tools rest net
    if !p.2.enabled then r
    else
      match list_mcp_tools (net p.2.url) with
      | .ok tools => ((p.1, tools) :: r.1, r.2)
      | .error e => (r.1, (p.1, errorText e) :: r.2)

/-- The response body of `GET /tools` (main.py lines 343-346):
`{"tools": all_tools, "errors": errors if errors else None}`. -/
def list_all_tools_response (servers : List (String × ServerConfig))
    (net : String → HttpOutcome) : Json :=
  let r := list_all_tools servers net
  Json.obj [("tools", Json.obj r.1),
    ("errors", if r.2.isEmpty then Json.null
      else Json.obj (r.2.map (fun p => (p.1, Json.str p.2))))]

/-! ### Store lemmas -/

theorem storeGet_storeSet_same (st : Store) (now now' : Nat) (key : String)
    (ttl : Nat) (v : Json) (h : now' < now + ttl) :
    storeGet (storeSet st now key ttl v) now' key = some v := by
  simp [storeGet, storeSet, List.lookup, h]

theorem storeGet_none_mono (st : Store) (now now' : Nat) (key : String)
    (h : storeGet st now key = none) (hle : now ≤ now') :
    storeGet st now' key = none := by
  unfold storeGet at h ⊢
  cases hl : st.lookup key with
  | none => rfl
  | some e =>
    rw [hl] at h
    by_cases hx : now < e.expiry
    · simp [hx] at h
    · have hx' : ¬ now' < e.expiry := by omega
      simp [hx']

/-- A fresh, unexpired cache entry short-circuits `execute_mcp_tool`: the
cached value is returned, the store is untouched and the Protocol Client is
not invoked (main.py lines 219-223). -/
theorem execute_mcp_tool_hit (servers : List (String × ServerConfig))
    (cfg : ServerConfig) (c : RedisClient) (now : Nat) (resp : HttpOutcome)
    (t s : String) (srv : Option String) (args : Option Json) (v : Json)
    (ht : ¬ t = "") (hres : resolve_server_name t srv = Except.ok s)
    (hlook : servers.lookup s = some cfg) (hen : cfg.enabled = true)
    (hrf : c.readFails = none)
    (hhit : storeGet c.store now (execute_cache_key s t) = some v) :
    execute_mcp_tool servers (some c) now resp ⟨some t, srv, args⟩ =
      ⟨Except.ok v, some c, false⟩ := by
  simp [execute_mcp_tool, cacheLookup, ht, hres, hlook, hen, hrf, hhit]

/-- **C1.** A valid request to an enabled registered backend over a healthy
cache client, on a cache miss with a Protocol Client success carrying value
`v`, returns `{success: true, server, tool, result: v, arguments}` and writes
it under the execute cache key with TTL 300 s; any second execute for the
same tool and backend strictly inside the TTL window returns that cached
result without invoking the Protocol Client again. -/
theorem execute_success_caches_and_second_execute_hits
    (servers : List (String × ServerConfig)) (cfg : ServerConfig) (st : Store)
    (now : Nat) (t s : String) (srv : Option String) (args v : Json)
    (ht : ¬ t = "") (hres : resolve_server_name t srv = Except.ok s)
    (hlook : servers.lookup s = some cfg) (hen : cfg.enabled = true)
    (hmiss : storeGet st now (execute_cache_key s t) = none) :
    execute_mcp_tool servers (some ⟨st, none, none⟩) now
        (HttpOutcome.ok (BodyResult.envelope none (some v))) ⟨some t, srv, some args⟩ =
      ⟨Except.ok (mkExecutionResult s t v args),
        some ⟨storeSet st now (execute_cache_key s t) execute_cache_ttl
          (mkExecutionResult s t v args), none, none⟩, true⟩ ∧
    ∀ (now' : Nat) (resp' : HttpOutcome) (args' : Option Json),
      now' < now + execute_cache_ttl →
      execute_mcp_tool servers
          (some ⟨storeSet st now (execute_cache_key s t) execute_cache_ttl
            (mkExecutionResult s t v args), none, none⟩) now' resp' ⟨some t, srv, args'⟩ =
        ⟨Except.ok (mkExecutionResult s t v args),
          some ⟨storeSet st now (execute_cache_key s t) execute_cache_ttl
            (mkExecutionResult s t v args), none, none⟩, false⟩ := by
  constructor
  · simp [execute_mcp_tool, cacheLookup, cacheWrite, ht, hres, hlook, hen, hmiss,
      call_mcp_tool, send_mcp_request]
  · intro now' resp' args' hlt
    exact execute_mcp_tool_hit servers cfg _ now' resp' t s srv args' _ ht hres hlook hen rfl
      (storeGet_storeSet_same st now now' (execute_cache_key s t) execute_cache_ttl
        (mkExecutionResult s t v args) hlt)

/-- Closed instance of C1 at the registry with `github` enabled. -/
theorem execute_success_caches_and_second_execute_hits_witness :
    execute_mcp_tool (MCP_SERVERS true) (some ⟨[], none, none⟩) 0
        (HttpOutcome.ok (BodyResult.envelope none (some (Json.str "ok"))))
        ⟨some "github_list_repos", none, some (Json.obj [])⟩ =
      ⟨Except.ok (mkExecutionResult "github" "github_list_repos" (Json.str "ok") (Json.obj [])),
        some ⟨storeSet [] 0 (execute_cache_key "github" "github_list_repos") execute_cache_ttl
          (mkExecutionResult "github" "github_list_repos" (Json.str "ok") (Json.obj [])),
          none, none⟩,
        true⟩ :=
  (execute_success_caches_and_second_execute_hits (MCP_SERVERS true)
    { url := "http://github_mcp:8000", enabled := true } [] 0
    "github_list_repos" "github" none (Json.obj []) (Json.str "ok")
    (by decide) rfl rfl rfl rfl).1

/-- A cache miss followed by a Protocol Client success and a succeeding cache
write: the ExecutionResult is built, cached for 300 s under the execute cache
key, and returned (main.py lines 226-248). -/
theorem execute_mcp_tool_miss_success (servers : List (String × ServerConfig))
    (cfg : ServerConfig) (redis redis2 : Option RedisClient) (now : Nat)
    (t s : String) (srv : Option String) (args v : Json)
    (ht : ¬ t = "") (hres : resolve_server_name t srv = Except.ok s)
    (hlook : servers.lookup s = some cfg) (hen : cfg.enabled = true)
    (hmiss : cacheLookup redis now (execute_cache_key s t) = Except.ok none)
    (hw : cacheWrite redis now (execute_cache_key s t) execute_cache_ttl
      (mkExecutionResult s t v args) = Except.ok redis2) :
    execute_mcp_tool servers redis now
        (HttpOutcome.ok (BodyResult.envelope none (some v))) ⟨some t, srv, some args⟩ =
      ⟨Except.ok (mkExecutionResult s t v args), redis2, true⟩ := by
  simp [execute_mcp_tool, ht, hres, hlook, hen, hmiss, hw, call_mcp_tool, send_mcp_request]

/-- **C2.** A failing `execute` call — validation error, resolution error,
unknown or disabled backend, or any Protocol Client failure — leaves the
cache exactly as it was; consequently a repeated identical call (at the same
or a later instant) that reached the Protocol Client the first time reaches
it again: no failed entry was cached. -/
theorem execute_failure_writes_no_cache_entry
    (servers : List (String × ServerConfig)) (redis : Option RedisClient)
    (now now' : Nat) (resp resp' : HttpOutcome) (req : ExecRequest)
    (e : GatewayError)
    (herr : (execute_mcp_tool servers redis now resp req).result = Except.error e) :
    (execute_mcp_tool servers redis now resp req).cache = redis ∧
    (now ≤ now' →
      (execute_mcp_tool servers redis now resp req).networkCalled = true →
      (execute_mcp_tool servers redis now' resp' req).networkCalled = true) := by
  obtain ⟨tool, srv, args⟩ := req
  cases tool with
  | none =>
    refine ⟨rfl, fun _ h => ?_⟩
    simp [execute_mcp_tool] at h
  | some t =>
    by_cases ht : t = ""
    · refine ⟨by simp [execute_mcp_tool, ht], fun _ h => ?_⟩
      simp [execute_mcp_tool, ht] at h
    · cases hres : resolve_server_name t srv with
      | error e2 =>
        refine ⟨by simp [execute_mcp_tool, ht, hres], fun _ h => ?_⟩
        simp [execute_mcp_tool, ht, hres] at h
      | ok s =>
        cases hlook : servers.lookup s with
        | none =>
          refine ⟨by simp [execute_mcp_tool, ht, hres, hlook], fun _ h => ?_⟩
          simp [execute_mcp_tool, ht, hres, hlook] at h
        | some cfg =>
          cases hen : cfg.enabled with
          | false =>
            refine ⟨by simp [execute_mcp_tool, ht, hres, hlook, hen], fun _ h => ?_⟩
            simp [execute_mcp_tool, ht, hres, hlook, hen] at h
          | true =>
            cases redis with
            | none =>
              cases hc : call_mcp_tool resp with
              | ok v =>
                exfalso
                simp [execute_mcp_tool, cacheLookup, cacheWrite, ht, hres, hlook,
                  hen, hc] at herr
              | error ge =>
                refine ⟨?_, fun _ _ => ?_⟩
                · cases ge <;>
                    simp [execute_mcp_tool, cacheLookup, cacheWrite, ht, hres, hlook,
                      hen, hc]
                · cases hc' : call_mcp_tool resp' with
                  | ok v' =>
                    simp [execute_mcp_tool, cacheLookup, cacheWrite, ht, hres, hlook,
                      hen, hc']
                  | error ge' =>
                    cases ge' <;>
                      simp [execute_mcp_tool, cacheLookup, cacheWrite, ht, hres, hlook,
                        hen, hc']
            | some c =>
              cases hrf : c.readFails with
              | some m =>
                refine ⟨by simp [execute_mcp_tool, cacheLookup, ht, hres, hlook, hen, hrf],
                  fun _ h => ?_⟩
                simp [execute_mcp_tool, cacheLookup, ht, hres, hlook, hen, hrf] at h
              | none =>
                cases hget : storeGet c.store now (execute_cache_key s t) with
                | some v =>
                  exfalso
                  simp [execute_mcp_tool, cacheLookup, ht, hres, hlook, hen, hrf,
                    hget] at herr
                | none =>
                  cases hc : call_mcp_tool resp with
                  | ok v =>
                    cases hwf : c.writeFails with
                    | none =>
                      exfalso
                      simp [execute_mcp_tool, cacheLookup, cacheWrite, ht, hres, hlook,
                        hen, hrf, hget, hwf, hc] at herr
                    | some m =>
                      refine ⟨by simp [execute_mcp_tool, cacheLookup, cacheWrite, ht,
                          hres, hlook, hen, hrf, hget, hwf, hc],
                        fun hle _ => ?_⟩
                      have hget' : storeGet c.store now' (execute_cache_key s t) = none :=
                        storeGet_none_mono c.store now now' (execute_cache_key s t) hget hle
                      cases hc' : call_mcp_tool resp' with
                      | ok v' =>
                        simp [execute_mcp_tool, cacheLookup, cacheWrite, ht, hres, hlook,
                          hen, hrf, hget', hwf, hc']
                      | error ge' =>
                        cases ge' <;>
                          simp [execute_mcp_tool, cacheLookup, cacheWrite, ht, hres,
                            hlook, hen, hrf, hget', hc']
                  | error ge =>
                    refine ⟨?_, fun hle _ => ?_⟩
                    · cases ge <;>
                        simp [execute_mcp_tool, cacheLookup, cacheWrite, ht, hres, hlook,
                          hen, hrf, hget, hc]
                    · have hget' : storeGet c.store now' (execute_cache_key s t) = none :=
                        storeGet_none_mono c.store now now' (execute_cache_key s t) hget hle
                      cases hc' : call_mcp_tool resp' with
                      | ok v' =>
                        cases hwf' : c.writeFails <;>
                          simp [execute_mcp_tool, cacheLookup, cacheWrite, ht, hres,
                            hlook, hen, hrf, hget', hwf', hc']
                      | error ge' =>
                        cases ge' <;>
                          simp [execute_mcp_tool, cacheLookup, cacheWrite, ht, hres,
                            hlook, hen, hrf, hget', hc']

/-- Closed instance of C2: a timed-out execute leaves the empty store empty
and a repeat of the same request still reaches the Protocol Client. -/
theorem execute_failure_writes_no_cache_entry_witness :
    (execute_mcp_tool (MCP_SERVERS true) (some ⟨[], none, none⟩) 0 HttpOutcome.timeout
        ⟨some "github_x", none, none⟩).cache = some ⟨[], none, none⟩ ∧
    (0 ≤ 1 →
      (execute_mcp_tool (MCP_SERVERS true) (some ⟨[], none, none⟩) 0 HttpOutcome.timeout
          ⟨some "github_x", none, none⟩).networkCalled = true →
      (execute_mcp_tool (MCP_SERVERS true) (some ⟨[], none, none⟩) 1 HttpOutcome.timeout
          ⟨some "github_x", none, none⟩).networkCalled = true) :=
  execute_failure_writes_no_cache_entry (MCP_SERVERS true) (some ⟨[], none, none⟩) 0 1
    HttpOutcome.timeout HttpOutcome.timeout ⟨some "github_x", none, none⟩
    (GatewayError.httpError 504 "MCP server timeout after 30s") rfl

/-- **C3 counterexample.** With no explicit server and the un-prefixed tool
name `"slack_post"`, `execute` does fail with status 400 — but its detail is
`"Server name required or tool name must include server prefix"` (capital
`S`), not the string the claim quotes. -/
theorem execute_no_server_detail_counterexample :
    (execute_mcp_tool (MCP_SERVERS true) none 0 HttpOutcome.timeout
        ⟨some "slack_post", none, none⟩).result =
      Except.error (GatewayError.httpError 400
        "Server name required or tool name must include server prefix") ∧
    "Server name required or tool name must include server prefix" ≠
      "server name required or tool name must include server prefix" :=
  ⟨rfl, by decide⟩

/-- **C3 (amended).** With no explicit server: a tool name starting with the
known backend name `github` followed by `_` resolves to backend `github`,
which is then used end to end; a tool name with no such prefix fails with
status 400 and detail `"Server name required or tool name must include
server prefix"` without contacting any backend and without touching the
cache. -/
theorem execute_infers_backend_from_prefix_or_400 (t : String)
    (args v : Json) (now : Nat) (ht : ¬ t = "") :
    (startswith t "github_" = true →
      resolve_server_name t none = Except.ok "github" ∧
      execute_mcp_tool (MCP_SERVERS true) (some ⟨[], none, none⟩) now
          (HttpOutcome.ok (BodyResult.envelope none (some v))) ⟨some t, none, some args⟩ =
        ⟨Except.ok (mkExecutionResult "github" t v args),
          some ⟨storeSet [] now (execute_cache_key "github" t) execute_cache_ttl
            (mkExecutionResult "github" t v args), none, none⟩, true⟩) ∧
    (startswith t "github_" = false →
      ∀ (servers : List (String × ServerConfig)) (redis : Option RedisClient)
        (resp : HttpOutcome) (args' : Option Json),
        execute_mcp_tool servers redis now resp ⟨some t, none, args'⟩ =
          ⟨Except.error (GatewayError.httpError 400
            "Server name required or tool name must include server prefix"),
            redis, false⟩) := by
  constructor
  · intro hpre
    have hres : resolve_server_name t none = Except.ok "github" := by
      simp [resolve_server_name, hpre]
    exact ⟨hres, execute_mcp_tool_miss_success (MCP_SERVERS true)
      { url := "http://github_mcp:8000", enabled := true } (some ⟨[], none, none⟩)
      (some ⟨storeSet [] now (execute_cache_key "github" t) execute_cache_ttl
        (mkExecutionResult "github" t v args), none, none⟩) now t "github"
      none args v ht hres rfl rfl rfl rfl⟩
  · intro hpre servers redis resp args'
    have hres : resolve_server_name t none = Except.error (GatewayError.httpError 400
        "Server name required or tool name must include server prefix") := by
      simp [resolve_server_name, hpre]
    simp [execute_mcp_tool, ht, hres]

/-- Closed instance of the amended C3 at the claim's example tool name
`github_create_issue`. -/
theorem execute_infers_backend_from_prefix_or_400_witness :
    resolve_server_name "github_create_issue" none = Except.ok "github" ∧
    execute_mcp_tool (MCP_SERVERS true) (some ⟨[], none, none⟩) 0
        (HttpOutcome.ok (BodyResult.envelope none (some (Json.str "done"))))
        ⟨some "github_create_issue", none, some (Json.obj [])⟩ =
      ⟨Except.ok (mkExecutionResult "github" "github_create_issue" (Json.str "done")
          (Json.obj [])),
        some ⟨storeSet [] 0 (execute_cache_key "github" "github_create_issue")
          execute_cache_ttl
          (mkExecutionResult "github" "github_create_issue" (Json.str "done") (Json.obj [])),
          none, none⟩,
        true⟩ :=
  (execute_infers_backend_from_prefix_or_400 "github_create_issue" (Json.obj [])
    (Json.str "done") 0 (by decide)).1 rfl

/-- **C4.** Every Protocol Client failure during `execute` surfaces to the
caller as a typed error: a timeout maps to 504, an unreachable backend to
503, a JSON-RPC error member to 500 with a detail carrying the backend's
message and code, and a malformed response body to 500; no Protocol Client
failure is swallowed by the Router. -/
theorem execute_propagates_protocol_client_failures
    (servers : List (String × ServerConfig)) (cfg : ServerConfig)
    (redis : Option RedisClient) (now : Nat) (t s : String) (srv : Option String)
    (args : Option Json)
    (ht : ¬ t = "") (hres : resolve_server_name t srv = Except.ok s)
    (hlook : servers.lookup s = some cfg) (hen : cfg.enabled = true)
    (hmiss : cacheLookup redis now (execute_cache_key s t) = Except.ok none) :
    execute_mcp_tool servers redis now HttpOutcome.timeout ⟨some t, srv, args⟩ =
      ⟨Except.error (GatewayError.httpError 504
        ("MCP server timeout after " ++ toString call_mcp_tool_timeout ++ "s")),
        redis, true⟩ ∧
    (∀ msg, execute_mcp_tool servers redis now (HttpOutcome.connectError msg)
        ⟨some t, srv, args⟩ =
      ⟨Except.error (GatewayError.httpError 503
        ("Failed to connect to MCP server: " ++ msg)), redis, true⟩) ∧
    (∀ (c : Int) (m : String) (r : Option Json),
      execute_mcp_tool servers redis now
          (HttpOutcome.ok (BodyResult.envelope (some ⟨some c, some m⟩) r))
          ⟨some t, srv, args⟩ =
        ⟨Except.error (GatewayError.httpError 500
          ("MCP error: " ++ m ++ " (code: " ++ toString c ++ ")")), redis, true⟩) ∧
    (∀ msg, execute_mcp_tool servers redis now
        (HttpOutcome.ok (BodyResult.malformed msg)) ⟨some t, srv, args⟩ =
      ⟨Except.error (GatewayError.httpError 500
        ("Error executing tool: " ++ msg)), redis, true⟩) ∧
    (∀ (resp : HttpOutcome) (e : GatewayError), call_mcp_tool resp = Except.error e →
      ∃ e', (execute_mcp_tool servers redis now resp ⟨some t, srv, args⟩).result =
        Except.error e') := by
  refine ⟨?_, ?_, ?_, ?_, ?_⟩
  · simp [execute_mcp_tool, ht, hres, hlook, hen, hmiss, call_mcp_tool, send_mcp_request]
  · intro msg
    simp [execute_mcp_tool, ht, hres, hlook, hen, hmiss, call_mcp_tool, send_mcp_request]
  · intro c m r
    simp [execute_mcp_tool, ht, hres, hlook, hen, hmiss, call_mcp_tool, send_mcp_request]
  · intro msg
    simp [execute_mcp_tool, ht, hres, hlook, hen, hmiss, call_mcp_tool, send_mcp_request]
  · intro resp e hc
    cases e with
    | httpError a d =>
      exact ⟨GatewayError.httpError a d,
        by simp [execute_mcp_tool, ht, hres, hlook, hen, hmiss, hc]⟩
    | genericError m =>
      exact ⟨GatewayError.httpError 500 ("Error executing tool: " ++ m),
        by simp [execute_mcp_tool, ht, hres, hlook, hen, hmiss, hc]⟩

/-- Closed instance of C4: a timed-out call surfaces as 504. -/
theorem execute_propagates_protocol_client_failures_witness :
    execute_mcp_tool (MCP_SERVERS true) (some ⟨[], none, none⟩) 0 HttpOutcome.timeout
        ⟨some "github_x", none, none⟩ =
      ⟨Except.error (GatewayError.httpError 504
        ("MCP server timeout after " ++ toString call_mcp_tool_timeout ++ "s")),
        some ⟨[], none, none⟩, true⟩ :=
  (execute_propagates_protocol_client_failures (MCP_SERVERS true)
    { url := "http://github_mcp:8000", enabled := true } (some ⟨[], none, none⟩) 0
    "github_x" "github" none none (by decide) rfl rfl rfl rfl).1

/-- **C7 counterexample.** Against the registered but disabled `github`
backend, `execute` does fail with status 503 and without dispatching — but
the detail is `"MCP server 'github' is not enabled"` (capital `MCP`), not the
string the claim quotes. -/
theorem execute_disabled_backend_detail_counterexample :
    execute_mcp_tool (MCP_SERVERS false) none 0 HttpOutcome.timeout
        ⟨some "github_x", none, none⟩ =
      ⟨Except.error (GatewayError.httpError 503 "MCP server 'github' is not enabled"),
        none, false⟩ ∧
    "MCP server 'github' is not enabled" ≠ "mcp server 'github' is not enabled" :=
  ⟨rfl, by decide⟩

/-- **C7 (amended).** A request resolving to a registered backend whose
`enabled` flag is false fails with status 503 and detail
`"MCP server '<name>' is not enabled"`, the Protocol Client is never invoked,
and the cache is untouched. -/
theorem execute_disabled_backend_503_no_dispatch
    (servers : List (String × ServerConfig)) (cfg : ServerConfig)
    (redis : Option RedisClient) (now : Nat) (resp : HttpOutcome) (t s : String)
    (srv : Option String) (args : Option Json)
    (ht : ¬ t = "") (hres : resolve_server_name t srv = Except.ok s)
    (hlook : servers.lookup s = some cfg) (hen : cfg.enabled = false) :
    execute_mcp_tool servers redis now resp ⟨some t, srv, args⟩ =
      ⟨Except.error (GatewayError.httpError 503
        ("MCP server '" ++ s ++ "' is not enabled")), redis, false⟩ := by
  simp [execute_mcp_tool, ht, hres, hlook, hen]

/-- Closed instance of the amended C7 at the registry with `github`
disabled. -/
theorem execute_disabled_backend_503_no_dispatch_witness :
    execute_mcp_tool (MCP_SERVERS false) (some ⟨[], none, none⟩) 0 HttpOutcome.timeout
        ⟨some "github_list_repos", none, none⟩ =
      ⟨Except.error (GatewayError.httpError 503
        ("MCP server '" ++ "github" ++ "' is not enabled")), some ⟨[], none, none⟩, false⟩ :=
  execute_disabled_backend_503_no_dispatch (MCP_SERVERS false)
    { url := "http://github_mcp:8000", enabled := false } (some ⟨[], none, none⟩) 0
    HttpOutcome.timeout "github_list_repos" "github" none none (by decide) rfl rfl rfl

/-- **C10.** When the backend answers with a non-success HTTP status code,
the Protocol Client re-raises exactly that status code with detail
`"MCP server error: <body>"`, before any JSON-RPC envelope interpretation,
and `execute` passes it through to the caller unchanged. -/
theorem execute_passes_backend_http_status_through
    (servers : List (String × ServerConfig)) (cfg : ServerConfig)
    (redis : Option RedisClient) (now : Nat) (t s : String) (srv : Option String)
    (args : Option Json) (code : Nat) (body : String)
    (ht : ¬ t = "") (hres : resolve_server_name t srv = Except.ok s)
    (hlook : servers.lookup s = some cfg) (hen : cfg.enabled = true)
    (hmiss : cacheLookup redis now (execute_cache_key s t) = Except.ok none) :
    send_mcp_request call_mcp_tool_timeout (HttpOutcome.statusError code body) =
      Except.error (GatewayError.httpError code ("MCP server error: " ++ body)) ∧
    execute_mcp_tool servers redis now (HttpOutcome.statusError code body)
        ⟨some t, srv, args⟩ =
      ⟨Except.error (GatewayError.httpError code ("MCP server error: " ++ body)),
        redis, true⟩ := by
  refine ⟨rfl, ?_⟩
  simp [execute_mcp_tool, ht, hres, hlook, hen, hmiss, call_mcp_tool, send_mcp_request]

/-- Closed instance of C10 at backend status 429. -/
theorem execute_passes_backend_http_status_through_witness :
    execute_mcp_tool (MCP_SERVERS true) (some ⟨[], none, none⟩) 0
        (HttpOutcome.statusError 429 "rate limited") ⟨some "github_x", none, none⟩ =
      ⟨Except.error (GatewayError.httpError 429 ("MCP server error: " ++ "rate limited")),
        some ⟨[], none, none⟩, true⟩ :=
  (execute_passes_backend_http_status_through (MCP_SERVERS true)
    { url := "http://github_mcp:8000", enabled := true } (some ⟨[], none, none⟩) 0
    "github_x" "github" none none 429 "rate limited" (by decide) rfl rfl rfl rfl).2

/-- **C5 (code bug).** The claim — and spec section 4.3 — require an
unavailable cache backing store to behave as an always-miss cache whose
unavailability is never surfaced.  The code does not implement this:
`redis.from_url` (main.py line 150) performs no I/O, so a down Redis server
leaves `redis_client` non-`None` and every command raises at request time.
The `get` at line 221 sits outside the `try` and escapes the handler
uncaught, the `setex` at line 246 sits inside it and is wrapped as a 500
`"Error executing tool: ..."`, and the tools-listing `get` at line 301
escapes likewise — while the identical request with no cache client at all
succeeds.  So the cache's unavailability is surfaced and the failing run is
not identical to the no-cache run. -/
theorem cache_down_surfaces_connection_error :
    (execute_mcp_tool (MCP_SERVERS true) (some ⟨[], some "ConnectionError", none⟩) 0
        (HttpOutcome.ok (BodyResult.envelope none (some (Json.str "ok"))))
        ⟨some "github_list_repos", none, some (Json.obj [])⟩).result =
      Except.error (GatewayError.genericError "ConnectionError") ∧
    (execute_mcp_tool (MCP_SERVERS true) (some ⟨[], some "ConnectionError", none⟩) 0
        (HttpOutcome.ok (BodyResult.envelope none (some (Json.str "ok"))))
        ⟨some "github_list_repos", none, some (Json.obj [])⟩).networkCalled = false ∧
    (execute_mcp_tool (MCP_SERVERS true) (some ⟨[], none, some "ConnectionError"⟩) 0
        (HttpOutcome.ok (BodyResult.envelope none (some (Json.str "ok"))))
        ⟨some "github_list_repos", none, some (Json.obj [])⟩).result =
      Except.error (GatewayError.httpError 500
        ("Error executing tool: " ++ "ConnectionError")) ∧
    (execute_mcp_tool (MCP_SERVERS true) none 0
        (HttpOutcome.ok (BodyResult.envelope none (some (Json.str "ok"))))
        ⟨some "github_list_repos", none, some (Json.obj [])⟩).result =
      Except.ok (mkExecutionResult "github" "github_list_repos" (Json.str "ok")
        (Json.obj [])) ∧
    (list_server_tools (MCP_SERVERS true) (some ⟨[], some "ConnectionError", none⟩) 0
        HttpOutcome.timeout "github").result =
      Except.error (GatewayError.genericError "ConnectionError") :=
  ⟨rfl, rfl, rfl, rfl, rfl⟩

/-- **C6 counterexample.** The execute cache key for backend `github` and
tool `github_list_repos` is `mcp:execute:github:github_list_repos`, not the
claimed `execute:github:github_list_repos`; likewise the tools-listing key
carries the `mcp:` prefix. -/
theorem cache_key_unprefixed_counterexample :
    execute_cache_key "github" "github_list_repos" =
      "mcp:execute:github:github_list_repos" ∧
    "mcp:execute:github:github_list_repos" ≠ "execute:github:github_list_repos" ∧
    tools_cache_key "github" = "mcp:tools:github" ∧
    "mcp:tools:github" ≠ "tools:github" :=
  ⟨rfl, by decide, rfl, by decide⟩

/-- **C6 (amended).** The cache key used by `execute` for both lookup and
write is exactly `"mcp:execute:" + backendName + ":" + toolName`, and the
tools-listing handler uses the distinct key namespace
`"mcp:tools:" + backendName`: a successful miss writes the ExecutionResult
under that `mcp:`-prefixed execute key. -/
theorem cache_keys_are_mcp_prefixed (servers : List (String × ServerConfig))
    (cfg : ServerConfig) (redis redis2 : Option RedisClient) (now : Nat)
    (t s : String) (srv : Option String) (args v : Json)
    (ht : ¬ t = "") (hres : resolve_server_name t srv = Except.ok s)
    (hlook : servers.lookup s = some cfg) (hen : cfg.enabled = true)
    (hmiss : cacheLookup redis now ("mcp:execute:" ++ s ++ ":" ++ t) = Except.ok none)
    (hw : cacheWrite redis now ("mcp:execute:" ++ s ++ ":" ++ t) execute_cache_ttl
      (mkExecutionResult s t v args) = Except.ok redis2) :
    execute_cache_key s t = "mcp:execute:" ++ s ++ ":" ++ t ∧
    tools_cache_key s = "mcp:tools:" ++ s ∧
    (execute_mcp_tool servers redis now
        (HttpOutcome.ok (BodyResult.envelope none (some v))) ⟨some t, srv, some args⟩).cache =
      redis2 := by
  refine ⟨rfl, rfl, ?_⟩
  have h := execute_mcp_tool_miss_success servers cfg redis redis2 now t s srv args v
    ht hres hlook hen hmiss hw
  rw [h]

/-- Closed instance of the amended C6. -/
theorem cache_keys_are_mcp_prefixed_witness :
    execute_cache_key "github" "github_list_repos" =
      "mcp:execute:" ++ "github" ++ ":" ++ "github_list_repos" ∧
    tools_cache_key "github" = "mcp:tools:" ++ "github" ∧
    (execute_mcp_tool (MCP_SERVERS true) (some ⟨[], none, none⟩) 0
        (HttpOutcome.ok (BodyResult.envelope none (some (Json.arr []))))
        ⟨some "github_list_repos", none, some (Json.obj [])⟩).cache =
      some ⟨storeSet [] 0 ("mcp:execute:" ++ "github" ++ ":" ++ "github_list_repos")
        execute_cache_ttl
        (mkExecutionResult "github" "github_list_repos" (Json.arr []) (Json.obj [])),
        none, none⟩ :=
  cache_keys_are_mcp_prefixed (MCP_SERVERS true)
    { url := "http://github_mcp:8000", enabled := true } (some ⟨[], none, none⟩)
    (some ⟨storeSet [] 0 ("mcp:execute:" ++ "github" ++ ":" ++ "github_list_repos")
      execute_cache_ttl
      (mkExecutionResult "github" "github_list_repos" (Json.arr []) (Json.obj [])),
      none, none⟩) 0
    "github_list_repos" "github" none (Json.obj []) (Json.arr [])
    (by decide) rfl rfl rfl rfl rfl

/-- **C9 counterexample.** The tool-listing path does not use a 10-second
timeout: `list_mcp_tools` calls `send_mcp_request` with the default, so its
timeout is 30 seconds, and a timed-out listing reports
`"MCP server timeout after 30s"`. -/
theorem list_tools_timeout_counterexample :
    list_mcp_tools_timeout ≠ 10 ∧
    list_mcp_tools HttpOutcome.timeout =
      Except.error (GatewayError.httpError 504 "MCP server timeout after 30s") :=
  ⟨by decide, rfl⟩

/-- **C9 (amended).** Every Protocol Client network call is bounded by an
explicit timeout whose default is 30 seconds for tool invocation
(`tools/call`) and likewise 30 seconds — not 10 — for tool listing
(`tools/list`), both inherited from `send_mcp_request`'s default. -/
theorem protocol_client_default_timeouts :
    send_mcp_request_default_timeout = 30 ∧
    call_mcp_tool_timeout = 30 ∧
    list_mcp_tools_timeout = 30 ∧
    (∀ resp, call_mcp_tool resp = send_mcp_request 30 resp) ∧
    call_mcp_tool HttpOutcome.timeout =
      Except.error (GatewayError.httpError 504 "MCP server timeout after 30s") ∧
    list_mcp_tools HttpOutcome.timeout =
      Except.error (GatewayError.httpError 504 "MCP server timeout after 30s") :=
  ⟨rfl, rfl, rfl, fun _ => rfl, rfl, rfl⟩

/-! ### Unfolding equations and auxiliary facts for `list_all_tools` -/

theorem list_all_tools_cons_disabled (p : String × ServerConfig)
    (rest : List (String × ServerConfig)) (net : String → HttpOutcome)
    (hp : p.2.enabled = false) :
    list_all_tools (p :: rest) net = list_all_tools rest net := by
  simp [list_all_tools, hp]

theorem list_all_tools_cons_ok (p : String × ServerConfig)
    (rest : List (String × ServerConfig)) (net : String → HttpOutcome) (ts : Json)
    (hp : p.2.enabled = true) (hc : list_mcp_tools (net p.2.url) = Except.ok ts) :
    list_all_tools (p :: rest) net =
      ((p.1, ts) :: (list_all_tools rest net).1, (list_all_tools rest net).2) := by
  simp [list_all_tools, hp, hc]

theorem list_all_tools_cons_err (p : String × ServerConfig)
    (rest : List (String × ServerConfig)) (net : String → HttpOutcome)
    (e : GatewayError)
    (hp : p.2.enabled = true) (hc : list_mcp_tools (net p.2.url) = Except.error e) :
    list_all_tools (p :: rest) net =
      ((list_all_tools rest net).1,
        (p.1, errorText e) :: (list_all_tools rest net).2) := by
  simp [list_all_tools, hp, hc]

/-- Every name appearing in either output of `list_all_tools` is the name of
a registered server. -/
theorem list_all_tools_output_names (servers : List (String × ServerConfig))
    (net : String → HttpOutcome) :
    (∀ q ∈ (list_all_tools servers net).1, q.1 ∈ servers.map Prod.fst) ∧
    (∀ q ∈ (list_all_tools servers net).2, q.1 ∈ servers.map Prod.fst) := by
  induction servers with
  | nil => simp [list_all_tools]
  | cons p rest ih =>
    by_cases hp : p.2.enabled = true
    · cases hc : list_mcp_tools (net p.2.url) with
      | ok ts =>
        rw [list_all_tools_cons_ok p rest net ts hp hc]
        constructor
        · intro q hq
          rcases List.mem_cons.mp hq with rfl | hq'
          · simp
          · simp [ih.1 q hq']
        · intro q hq
          simp [ih.2 q hq]
      | error e =>
        rw [list_all_tools_cons_err p rest net e hp hc]
        constructor
        · intro q hq
          simp [ih.1 q hq]
        · intro q hq
          rcases List.mem_cons.mp hq with rfl | hq'
          · simp
          · simp [ih.2 q hq']
    · rw [list_all_tools_cons_disabled p rest net (by simpa using hp)]
      exact ⟨fun q hq => by simp [ih.1 q hq], fun q hq => by simp [ih.2 q hq]⟩

/-- **C8.** `list_all_tools` visits every enabled backend and isolates
per-backend failures: an enabled backend whose listing succeeds contributes
its tool list to the `tools` mapping and one whose listing fails contributes
its stringified error to the `errors` mapping, independently of every other
backend; a disabled backend (under unique registry names) appears in
neither mapping. -/
theorem list_all_tools_isolates_backend_failures
    (servers : List (String × ServerConfig)) (net : String → HttpOutcome)
    (name : String) (cfg : ServerConfig)
    (hmem : (name, cfg) ∈ servers) :
    (cfg.enabled = true →
      (∀ ts, list_mcp_tools (net cfg.url) = Except.ok ts →
        (name, ts) ∈ (list_all_tools servers net).1) ∧
      (∀ e, list_mcp_tools (net cfg.url) = Except.error e →
        (name, errorText e) ∈ (list_all_tools servers net).2)) ∧
    (cfg.enabled = false → (servers.map Prod.fst).Nodup →
      (∀ q ∈ (list_all_tools servers net).1, q.1 ≠ name) ∧
      (∀ q ∈ (list_all_tools servers net).2, q.1 ≠ name)) := by
  revert hmem
  induction servers with
  | nil =>
    intro hmem
    exact absurd hmem (List.not_mem_nil _)
  | cons p rest ih =>
    intro hmem
    rcases List.mem_cons.mp hmem with heq | hmem'
    · subst heq
      constructor
      · intro hen
        constructor
        · intro ts hc
          rw [list_all_tools_cons_ok _ rest net ts hen hc]
          exact List.mem_cons_self _ _
        · intro e hc
          rw [list_all_tools_cons_err _ rest net e hen hc]
          exact List.mem_cons_self _ _
      · intro hen hnd
        rw [list_all_tools_cons_disabled _ rest net hen]
        have hnotin : name ∉ rest.map Prod.fst := by
          have hnd1 : (name :: rest.map Prod.fst).Nodup := by
            simpa only [List.map_cons] using hnd
          exact (List.nodup_cons.mp hnd1).1
        obtain ⟨o1, o2⟩ := list_all_tools_output_names rest net
        exact ⟨fun q hq hqe => hnotin (hqe ▸ o1 q hq),
          fun q hq hqe => hnotin (hqe ▸ o2 q hq)⟩
    · have IH := ih hmem'
      constructor
      · intro hen
        obtain ⟨IH1, IH2⟩ := IH.1 hen
        constructor
        · intro ts hc
          have h1 := IH1 ts hc
          by_cases hp : p.2.enabled = true
          · cases hc' : list_mcp_tools (net p.2.url) with
            | ok tsp =>
              rw [list_all_tools_cons_ok p rest net tsp hp hc']
              exact List.mem_cons_of_mem _ h1
            | error ep =>
              rw [list_all_tools_cons_err p rest net ep hp hc']
              exact h1
          · rw [list_all_tools_cons_disabled p rest net (by simpa using hp)]
            exact h1
        · intro e hc
          have h2 := IH2 e hc
          by_cases hp : p.2.enabled = true
          · cases hc' : list_mcp_tools (net p.2.url) with
            | ok tsp =>
              rw [list_all_tools_cons_ok p rest net tsp hp hc']
              exact h2
            | error ep =>
              rw [list_all_tools_cons_err p rest net ep hp hc']
              exact List.mem_cons_of_mem _ h2
          · rw [list_all_tools_cons_disabled p rest net (by simpa using hp)]
            exact h2
      · intro hen hnd
        have hnd1 : (p.1 :: rest.map Prod.fst).Nodup := by
          simpa only [List.map_cons] using hnd
        have hnd0 := List.nodup_cons.mp hnd1
        obtain ⟨IH1, IH2⟩ := IH.2 hen hnd0.2
        have hpne : p.1 ≠ name := by
          have hin : name ∈ rest.map Prod.fst :=
            List.mem_map.mpr ⟨(name, cfg), hmem', rfl⟩
          intro hpe
          exact hnd0.1 (hpe ▸ hin)
        by_cases hp : p.2.enabled = true
        · cases hc' : list_mcp_tools (net p.2.url) with
          | ok tsp =>
            rw [list_all_tools_cons_ok p rest net tsp hp hc']
            refine ⟨?_, IH2⟩
            intro q hq
            rcases List.mem_cons.mp hq with rfl | hq'
            · exact hpne
            · exact IH1 q hq'
          | error ep =>
            rw [list_all_tools_cons_err p rest net ep hp hc']
            refine ⟨IH1, ?_⟩
            intro q hq
            rcases List.mem_cons.mp hq with rfl | hq'
            · exact hpne
            · exact IH2 q hq'
        · rw [list_all_tools_cons_disabled p rest net (by simpa using hp)]
          exact ⟨IH1, IH2⟩

/-- A two-backend demo registry: `A` answers tool listings, `B` times out. -/
def demo_servers : List (String × ServerConfig) :=
  [("A", { url := "http://a:8000", enabled := true }),
   ("B", { url := "http://b:8000", enabled := true })]

/-- Demo network: `A`'s url returns two tools, everything else times out. -/
def demo_net : String → HttpOutcome := fun u =>
  if u = "http://a:8000" then
    HttpOutcome.ok (BodyResult.envelope none
      (some (Json.obj [("tools", Json.arr [Json.str "t1", Json.str "t2"])])))
  else HttpOutcome.timeout

/-- Closed instance of C8: over `{A: succeeds with 2 tools, B: times out}`,
`A`'s tool list is in the `tools` mapping and `B`'s error string is in the
`errors` mapping. -/
theorem list_all_tools_isolates_backend_failures_witness :
    ("A", Json.arr [Json.str "t1", Json.str "t2"]) ∈
      (list_all_tools demo_servers demo_net).1 ∧
    ("B", errorText (GatewayError.httpError 504 "MCP server timeout after 30s")) ∈
      (list_all_tools demo_servers demo_net).2 :=
  ⟨((list_all_tools_isolates_backend_failures demo_servers demo_net "A"
      { url := "http://a:8000", enabled := true } (by decide)).1 rfl).1
    (Json.arr [Json.str "t1", Json.str "t2"]) rfl,
  ((list_all_tools_isolates_backend_failures demo_servers demo_net "B"
      { url := "http://b:8000", enabled := true } (by decide)).1 rfl).2
    (GatewayError.httpError 504 "MCP server timeout after 30s") rfl⟩

end MCPGateway
